import Mathlib

/-!
Verification of the vidcom_2-life-v3 staging API worker and its session-variant
worker against the natural-language specification.

The development shallowly embeds the two Cloudflare-worker request handlers:

* the staging worker (experiences / pairs / uploads / MindAR job dispatch and
  completion / public resolution / hard-coded login), and
* the session-variant worker (salted-hash login with a server-held session
  table, and the restricted pair-update route).

Database tables (D1) are modelled as Lean lists of row structures; SQL UPDATE
statements become List.map over the rows; the R2 object store is a list of
stored objects; external effects (the GitHub workflow-dispatch call, the
WebCrypto HMAC and SHA-256 primitives, clocks and fresh identifiers) are
passed in as explicit parameters.  JavaScript string numbers are modelled as
rationals, nullable columns as Option, and SQLite integer flags as Nat.
-/

namespace Vidcom

/-! ### String helpers

JavaScript string operations used by the handlers, implemented structurally
over the character list of a Lean String so that they reduce in the kernel.
-/

/-- Whitespace characters removed by the JavaScript String.trim call
(the common ASCII set, which covers every string these handlers treat). -/
def wsChar (c : Char) : Bool := c = ' ' || c = '\t' || c = '\n' || c = '\r'

/-- JavaScript String.trim: strip leading and trailing whitespace. -/
def trimStr (s : String) : String :=
  ⟨((s.data.dropWhile wsChar).reverse.dropWhile wsChar).reverse⟩

/-- ASCII lower-casing of one character (JavaScript toLowerCase on the
ASCII range used by the login route). -/
def lowerChar (c : Char) : Char :=
  if 'A' ≤ c ∧ c ≤ 'Z' then Char.ofNat (c.toNat + 32) else c

/-- JavaScript String.toLowerCase restricted to ASCII. -/
def lowerStr (s : String) : String := ⟨s.data.map lowerChar⟩

/-- Byte-wise (codepoint) strict ordering on character lists: the BINARY
collation SQLite applies to TEXT columns in ORDER BY (ids here are ASCII). -/
def charListLt : List Char → List Char → Bool
  | [], [] => false
  | [], _ :: _ => true
  | _ :: _, [] => false
  | a :: as, b :: bs =>
    if a.toNat < b.toNat then true
    else if a.toNat = b.toNat then charListLt as bs
    else false

/-- Strict string ordering used for the id tie-break in ORDER BY ... id DESC. -/
def ltStr (a b : String) : Bool := charListLt a.data b.data

/-- JavaScript String.startsWith. -/
def strStartsWith (s pre : String) : Bool := List.isPrefixOf pre.data s.data

/-! ### Data model: rows of the staging worker database -/

/-- A row of the pairs table, as selected and updated by the staging worker.
Nullable columns are Option; is_active is the SQLite 0/1 integer flag;
threshold and priority are JavaScript numbers, modelled as rationals. -/
structure Pair where
  id : String
  experience_id : String
  image_asset_id : String
  video_asset_id : String
  image_fingerprint : Option String
  mind_target_asset_id : Option String
  mind_target_status : Option String
  mind_target_error : Option String
  mind_target_requested_at : Option String
  mind_target_completed_at : Option String
  threshold : ℚ
  priority : ℚ
  is_active : Nat
  deriving DecidableEq

/-- A row of the experiences table. -/
structure ExperienceRow where
  id : String
  name : String
  qr_id : String
  is_active : Nat
  created_at : String
  updated_at : String
  deriving DecidableEq

/-- The mapExperience projection the staging worker applies before returning
an experience in a JSON payload (Boolean coerces the 0/1 flag). -/
structure MappedExperience where
  id : String
  name : String
  qr_id : String
  is_active : Bool
  deriving DecidableEq

/-- mapExperience from the staging worker. -/
def mapExperience (e : ExperienceRow) : MappedExperience :=
  { id := e.id, name := e.name, qr_id := e.qr_id, is_active := e.is_active != 0 }

/-- SQL UPDATE pairs ... WHERE id = pid: apply the row transformation to every
row whose id matches, leave the others unchanged. -/
def updatePairs (pairs : List Pair) (pid : String) (f : Pair → Pair) : List Pair :=
  pairs.map (fun p => if p.id = pid then f p else p)

/-! ### MindAR job completion callback (POST /jobs/mindar/complete)

The handler authenticates with isJobSecretValid, extracts
pairId and mindAssetId with String(x || "").trim() and the error field with
(body.error ? String(body.error) : ""), and then either marks the pair failed
(recording the error message, or a fixed fallback when the message is empty
and the asset id is missing) or marks it ready with the new asset id.  The
UPDATE is unconditional: it does not read the current status of the pair.
-/

inductive CompleteResp
  | unauthorized
  | missingPairId
  | failedAck (msg : String)
  | okAck
  deriving DecidableEq

/-- The SET clause of the failure branch of the completion callback. -/
def completeFailedRow (msg t : String) (p : Pair) : Pair :=
  { p with mind_target_status := some "failed", mind_target_error := some msg,
           mind_target_completed_at := some t }

/-- The SET clause of the success branch of the completion callback. -/
def completeReadyRow (aid t : String) (p : Pair) : Pair :=
  { p with mind_target_asset_id := some aid, mind_target_status := some "ready",
           mind_target_error := none, mind_target_completed_at := some t }

/-- POST /jobs/mindar/complete.  secretOk is the result of isJobSecretValid on
the request; pairIdRaw and mindAssetIdRaw are the raw body fields (absent
fields arrive as the empty string per the x || "" coercion); errorField is the
raw body.error value, with none for an absent or falsy field; t is the
nowIso() timestamp taken by the handler. -/
def completeMindar (secretOk : Bool) (pairIdRaw mindAssetIdRaw : String)
    (errorField : Option String) (t : String) (pairs : List Pair) :
    List Pair × CompleteResp :=
  if secretOk = false then (pairs, CompleteResp.unauthorized)
  else
    let pairId := trimStr pairIdRaw
    let mindAssetId := trimStr mindAssetIdRaw
    let errorMessage := errorField.getD ""
    if pairId = "" then (pairs, CompleteResp.missingPairId)
    else if errorMessage ≠ "" ∨ mindAssetId = "" then
      let msg := if errorMessage = "" then "MindAR generation failed" else errorMessage
      (updatePairs pairs pairId (completeFailedRow msg t), CompleteResp.failedAck msg)
    else
      (updatePairs pairs pairId (completeReadyRow mindAssetId t), CompleteResp.okAck)

/-! ### MindAR job dispatch (POST /jobs/mindar/dispatch)

The handler requires a bearer user, validates pairId and image_asset_id
(String(x || "").trim()), marks the pair pending (clearing the error and
timestamping the request), then attempts the external GitHub
workflow-dispatch call; when that trigger call fails it immediately marks the
pair failed with the fixed message "Dispatch failed".  It never consults the
actual job for completion: the response only reports whether the trigger call
was accepted.  dispatchOk stands for the outcome of the external
dispatchMindarJob call (false also covers missing GITHUB_TOKEN or
GITHUB_REPO configuration).
-/

inductive DispatchResp
  | unauthorized
  | badRequest
  | ok (triggerAccepted : Bool)
  deriving DecidableEq

/-- The SET clause that marks a pair pending before a dispatch attempt. -/
def dispatchPendingRow (t : String) (p : Pair) : Pair :=
  { p with mind_target_status := some "pending", mind_target_error := none,
           mind_target_requested_at := some t }

/-- The SET clause applied when the external trigger call fails. -/
def dispatchFailedRow (p : Pair) : Pair :=
  { p with mind_target_status := some "failed", mind_target_error := some "Dispatch failed" }

/-- POST /jobs/mindar/dispatch. -/
def dispatchMindarEndpoint (userOk : Bool) (pairIdRaw imageAssetIdRaw : String)
    (t : String) (dispatchOk : Bool) (pairs : List Pair) : List Pair × DispatchResp :=
  if userOk = false then (pairs, DispatchResp.unauthorized)
  else
    let pairId := trimStr pairIdRaw
    let imageAssetId := trimStr imageAssetIdRaw
    if pairId = "" ∨ imageAssetId = "" then (pairs, DispatchResp.badRequest)
    else
      let marked := updatePairs pairs pairId (dispatchPendingRow t)
      if dispatchOk then (marked, DispatchResp.ok true)
      else (updatePairs marked pairId dispatchFailedRow, DispatchResp.ok false)

/-! ### Pair creation (POST /experiences/:id/pairs, staging worker)

The handler extracts the asset ids with String(x || "").trim(), rejects when
either is empty, inserts the new row with mind_target_status "pending" and a
fresh request timestamp, then performs the same fire-and-forget dispatch as
above.  The body may carry the threshold under match_threshold or threshold;
thresholdField is that first-present value, defaulting to 0.8.  The
fingerprint is stored opaquely (serialized); none models an absent or falsy
field.
-/

/-- The JavaScript default 0.8 for the match threshold, as a rational. -/
def defaultThreshold : ℚ := ⟨4, 5, by decide, by decide⟩

structure CreatePairResult where
  pairs : List Pair
  created : Bool
  dispatched : Bool
  deriving DecidableEq

/-- The freshly inserted pairs row. -/
def newPairRow (newId expId imageAssetId videoAssetId : String)
    (fingerprint : Option String) (threshold priority : ℚ) (t : String) : Pair :=
  { id := newId, experience_id := expId, image_asset_id := imageAssetId,
    video_asset_id := videoAssetId, image_fingerprint := fingerprint,
    mind_target_asset_id := none, mind_target_status := some "pending",
    mind_target_error := none, mind_target_requested_at := some t,
    mind_target_completed_at := none, threshold := threshold,
    priority := priority, is_active := 1 }

/-- POST /experiences/:id/pairs (staging worker). -/
def createPairHandler (expId imageRaw videoRaw : String)
    (fingerprint : Option String) (thresholdField priorityField : Option ℚ)
    (newId t : String) (dispatchOk : Bool) (pairs : List Pair) : CreatePairResult :=
  let imageAssetId := trimStr imageRaw
  let videoAssetId := trimStr videoRaw
  if imageAssetId = "" ∨ videoAssetId = "" then
    { pairs := pairs, created := false, dispatched := false }
  else
    let threshold := thresholdField.getD defaultThreshold
    let priority := priorityField.getD 0
    let inserted := pairs ++
      [newPairRow newId expId imageAssetId videoAssetId fingerprint threshold priority t]
    if dispatchOk then { pairs := inserted, created := true, dispatched := true }
    else { pairs := updatePairs inserted newId dispatchFailedRow,
           created := true, dispatched := true }

/-! ### Pair update (PUT /pairs/:id, staging worker)

Body fields are extracted with (body.x ? String(body.x).trim() : null) for the
three id fields, (body.x !== undefined ? Number(body.x) : null) for threshold
and priority, (body.is_active !== undefined ? Boolean(body.is_active) : null)
for the flag, and (body.image_fingerprint ?? null) for the fingerprint (stored
serialized).  Unsupplied fields fall back to the existing row values; the
UPDATE statement nevertheless always clears mind_target_error.  When the
extracted image_asset_id is truthy and differs from the stored one, the
generation state is reset to pending and the job is re-dispatched,
fire-and-forget, exactly as at creation.
-/

/-- A PUT /pairs/:id request body.  Each field is the raw JSON value: none
models an absent field. -/
structure PairPutBody where
  experience_id : Option String
  image_asset_id : Option String
  video_asset_id : Option String
  image_fingerprint : Option String
  threshold : Option ℚ
  priority : Option ℚ
  is_active : Option Bool
  deriving DecidableEq

/-- The extraction (body.x ? String(body.x).trim() : null): a falsy (absent or
empty) field becomes null, anything else is trimmed. -/
def truthyTrim : Option String → Option String
  | none => none
  | some s => if s = "" then none else some (trimStr s)

/-- The imageChanged test of the handler: the extracted image_asset_id is
truthy and differs from the stored one. -/
def effImageChanged (b : PairPutBody) (ex : Pair) : Bool :=
  match truthyTrim b.image_asset_id with
  | some v => !(v == "") && !(v == ex.image_asset_id)
  | none => false

/-- The SET clause of the PUT /pairs/:id UPDATE: every column is replaced by
the value computed from the body and the previously fetched row ex, except
mind_target_completed_at (not in the SET list) and the id; mind_target_error
is always set to NULL. -/
def putPairRow (b : PairPutBody) (ex : Pair) (t : String) (p : Pair) : Pair :=
  let imageChanged := effImageChanged b ex
  { p with
    experience_id := (truthyTrim b.experience_id).getD ex.experience_id,
    image_asset_id := (truthyTrim b.image_asset_id).getD ex.image_asset_id,
    video_asset_id := (truthyTrim b.video_asset_id).getD ex.video_asset_id,
    image_fingerprint := match b.image_fingerprint with
      | some s => some s
      | none => ex.image_fingerprint,
    mind_target_asset_id := if imageChanged then none else ex.mind_target_asset_id,
    mind_target_status := if imageChanged then some "pending" else ex.mind_target_status,
    mind_target_error := none,
    mind_target_requested_at := if imageChanged then some t else ex.mind_target_requested_at,
    threshold := b.threshold.getD ex.threshold,
    priority := b.priority.getD ex.priority,
    is_active := match b.is_active with
      | some v => if v then 1 else 0
      | none => ex.is_active }

structure PutPairResult where
  pairs : List Pair
  found : Bool
  dispatched : Bool
  deriving DecidableEq

/-- PUT /pairs/:id (staging worker).  pairId is the raw path parameter (the
code does not trim it); t is nowIso(); dispatchOk the external trigger
outcome. -/
def putPairHandler (pairId : String) (b : PairPutBody) (t : String)
    (dispatchOk : Bool) (pairs : List Pair) : PutPairResult :=
  match pairs.find? (fun p => p.id == pairId) with
  | none => { pairs := pairs, found := false, dispatched := false }
  | some ex =>
    let updated := updatePairs pairs pairId (putPairRow b ex t)
    if effImageChanged b ex then
      if dispatchOk then { pairs := updated, found := true, dispatched := true }
      else { pairs := updatePairs updated pairId dispatchFailedRow,
             found := true, dispatched := true }
    else { pairs := updated, found := true, dispatched := false }

/-! ### Pair update (PUT /pairs/:id, session-variant worker)

The session-variant handler accepts only is_active (boolean), threshold and
priority (numbers), assembling a dynamic SET list from the fields that pass
the typeof checks; with no recognised field it answers 400 before touching the
table.  Every column outside the SET list is untouched.  The row shape is
shared with the staging model; columns the session variant never selects are
simply carried through.
-/

/-- A session-variant PUT /pairs/:id body: the three recognised fields, with
none for an absent field or one of the wrong type. -/
structure SessPairPutBody where
  is_active : Option Bool
  threshold : Option ℚ
  priority : Option ℚ
  deriving DecidableEq

inductive SessPutResp
  | unauthorized
  | badRequest
  | notFoundAfter
  | ok
  deriving DecidableEq

/-- The dynamic SET clause of the session-variant update: only supplied
fields are written, each row keeps its own values elsewhere. -/
def sessPutRow (b : SessPairPutBody) (p : Pair) : Pair :=
  { p with
    is_active := match b.is_active with
      | some v => if v then 1 else 0
      | none => p.is_active,
    threshold := b.threshold.getD p.threshold,
    priority := b.priority.getD p.priority }

/-- The columns the session-variant pair update can never touch, bundled for
frame statements. -/
def sessFrameFields (p : Pair) :
    String × String × String × Option String × Option String × Option String ×
      Option String × Option String × Option String :=
  (p.experience_id, p.image_asset_id, p.video_asset_id, p.image_fingerprint,
    p.mind_target_asset_id, p.mind_target_status, p.mind_target_error,
    p.mind_target_requested_at, p.mind_target_completed_at)

/-- PUT /pairs/:id (session-variant worker). -/
def putPairSession (userOk : Bool) (pairId : String) (b : SessPairPutBody)
    (pairs : List Pair) : List Pair × SessPutResp :=
  if userOk = false then (pairs, SessPutResp.unauthorized)
  else if b.is_active = none ∧ b.threshold = none ∧ b.priority = none then
    (pairs, SessPutResp.badRequest)
  else
    let updated := updatePairs pairs pairId (sessPutRow b)
    match updated.find? (fun p => p.id == pairId) with
    | none => (updated, SessPutResp.notFoundAfter)
    | some _ => (updated, SessPutResp.ok)

/-! ### Public resolution (GET /public/experience/:qrId, staging worker)

The handler fetches the first experiences row with the given qr_id (SELECT
... LIMIT 1, modelled as the first list match), answers 404 when there is no
row or its is_active flag is 0, otherwise selects the single active pair with
the highest (priority, id) in ORDER BY priority DESC, id DESC order and
builds the payload: mindarTargetUrl only when the pair status is "ready" and
its mind_target_asset_id is truthy, videoUrl whenever the video asset id is
truthy, and the raw status string (null when there is no pair or no status).
-/

inductive PublicResp
  | notFound
  | ok (experience : MappedExperience) (mindarTargetUrl videoUrl : Option String)
      (mind_target_status : Option String)
  deriving DecidableEq

/-- p sorts strictly before q under ORDER BY priority DESC, id DESC. -/
def orderBeats (p q : Pair) : Bool :=
  decide (q.priority < p.priority) || (decide (p.priority = q.priority) && ltStr q.id p.id)

/-- SELECT ... FROM pairs WHERE experience_id = ? AND is_active = 1
ORDER BY priority DESC, id DESC LIMIT 1. -/
def selectPublicPair (pairs : List Pair) (expId : String) : Option Pair :=
  (pairs.filter (fun p => p.experience_id == expId && p.is_active == 1)).foldl
    (fun best p =>
      match best with
      | none => some p
      | some q => if orderBeats p q then some p else some q) none

/-- GET /public/experience/:qrId (staging worker).  origin is the request
URL origin used to build asset URLs. -/
def publicExperienceGet (origin : String) (exps : List ExperienceRow)
    (pairs : List Pair) (qrId : String) : PublicResp :=
  match exps.find? (fun e => e.qr_id == qrId) with
  | none => PublicResp.notFound
  | some exp =>
    if exp.is_active = 0 then PublicResp.notFound
    else
      let pair := selectPublicPair pairs exp.id
      let mindarTargetUrl : Option String :=
        match pair with
        | some p =>
          match p.mind_target_asset_id with
          | some aid =>
            if p.mind_target_status = some "ready" ∧ aid ≠ "" then
              some (origin ++ "/public/assets/" ++ aid)
            else none
          | none => none
        | none => none
      let videoUrl : Option String :=
        match pair with
        | some p =>
          if p.video_asset_id = "" then none
          else some (origin ++ "/public/assets/" ++ p.video_asset_id)
        | none => none
      PublicResp.ok (mapExperience exp) mindarTargetUrl videoUrl
        (pair.bind Pair.mind_target_status)

/-! ### Signed uploads (staging worker)

buildUploadToken computes an HMAC-SHA-256 signature (base64url) over the
purpose-tagged string "upload:" ++ r2Key under the resolved signing secret;
verifyUploadToken rejects a missing or falsy token and otherwise compares it
for exact equality with the recomputed signature.  The PUT /uploads/put/:key
handler 404s on an empty key, 401s when verification fails, and otherwise
writes the request body into the object store under the key, with the mime
query parameter (or its default) as content type.  The WebCrypto HMAC
primitive is passed in as the function parameter hmac.
-/

/-- buildUploadToken: sign the purpose-tagged string for the key. -/
def buildUploadToken (hmac : String → String → String) (secret r2Key : String) : String :=
  hmac secret ("upload:" ++ r2Key)

/-- verifyUploadToken: a falsy token fails, otherwise exact-match comparison
against the recomputed signature. -/
def verifyUploadToken (hmac : String → String → String) (secret r2Key : String)
    (token : Option String) : Bool :=
  match token with
  | none => false
  | some tk => if tk = "" then false else tk == buildUploadToken hmac secret r2Key

/-- An object stored in the R2 bucket. -/
structure StoredObject where
  key : String
  mime : String
  data : String
  deriving DecidableEq

inductive UploadResp
  | notFound
  | unauthorized
  | ok (r2Key : String)
  deriving DecidableEq

/-- PUT /uploads/put/:key (staging worker).  The bucket is a list with
newest-first lookup, so consing models the R2 overwrite-on-put. -/
def putUploadHandler (hmac : String → String → String) (secret : String)
    (r2Key : String) (token : Option String) (mimeParam : Option String)
    (data : String) (bucket : List StoredObject) : List StoredObject × UploadResp :=
  if r2Key = "" then (bucket, UploadResp.notFound)
  else if verifyUploadToken hmac secret r2Key token = false then
    (bucket, UploadResp.unauthorized)
  else
    let mime := match mimeParam with
      | some m => if m = "" then "application/octet-stream" else m
      | none => "application/octet-stream"
    ({ key := r2Key, mime := mime, data := data } :: bucket, UploadResp.ok r2Key)

/-! ### Authentication

The staging worker gate: after the always-public routes, any path under
/experiences, /pairs or /uploads requires either a verified bearer user, or
the upload-PUT path (token-checked inside the handler), or a valid x-job-secret
header; isJobSecretValid demands a non-empty configured MINDAR_JOB_SECRET and
exact header equality.

Logins: the staging worker compares the lower-cased trimmed email and the raw
password against the hard-coded pair admin@local / admin123 — it performs no
user-store query at all — and on success issues a signed token whose payload
embeds exp = now + 7 days (in seconds).  The session-variant worker looks up
the user row by email, rejects a missing or inactive user, recomputes
sha256(salt ++ ":" ++ password) and compares it with the stored hash, and on
success inserts a session row expiring 7 days later (in milliseconds).
-/

/-- needsAuth from the staging worker fetch handler. -/
def needsAuthPath (path : String) : Bool :=
  strStartsWith path "/experiences" || strStartsWith path "/pairs" ||
    strStartsWith path "/uploads"

/-- isUploadPut from the staging worker fetch handler. -/
def isUploadPutPath (path : String) : Bool := strStartsWith path "/uploads/put/"

/-- isJobSecretValid: non-empty configured secret and exact header match. -/
def isJobSecretValid (secret header : String) : Bool :=
  decide (0 < secret.length) && (header == secret)

/-- The staging worker auth gate: true when the request is rejected with 401
before reaching any protected handler. -/
def authGateRejects (path : String) (userOk : Bool) (secret header : String) : Bool :=
  needsAuthPath path && !userOk && !(isUploadPutPath path) &&
    !(isJobSecretValid secret header)

/-- The payload of a staging-worker bearer token (issueToken): email,
issued-at and expiry in epoch seconds. -/
structure StagingToken where
  email : String
  iat : Int
  exp : Int
  deriving DecidableEq

/-- issueToken of the staging worker: exp = now + 60 * 60 * 24 * 7 seconds. -/
def issueStagingToken (email : String) (nowSec : Int) : StagingToken :=
  { email := email, iat := nowSec, exp := nowSec + 604800 }

inductive StagingLoginResp
  | invalid (seenEmail : String)
  | ok (token : StagingToken)
  deriving DecidableEq

/-- A row of the session-variant users table. -/
structure UserRow where
  id : String
  email : String
  password_hash : String
  password_salt : String
  is_active : Nat
  deriving DecidableEq

/-- POST /auth/login (staging worker).  The handler consults no user store:
the users parameter records the store available to the service and is
deliberately unread, exactly as in the code. -/
def loginStaging (_users : List UserRow) (emailRaw passwordRaw : String)
    (nowSec : Int) : StagingLoginResp :=
  let email := lowerStr (trimStr emailRaw)
  if email = "admin@local" ∧ passwordRaw = "admin123" then
    StagingLoginResp.ok (issueStagingToken email nowSec)
  else StagingLoginResp.invalid email

/-- A row of the session-variant sessions table; the expiry is compared as a
millisecond timestamp. -/
structure SessionRow where
  token : String
  user_id : String
  created_at : String
  expires_at_ms : Int
  deriving DecidableEq

/-- A parsed login body: raw email and password JSON fields. -/
structure LoginBody where
  email : Option String
  password : Option String
  deriving DecidableEq

inductive LoginResp
  | badRequest
  | invalidCredentials
  | ok (token : String)
  deriving DecidableEq

/-- assertString of the session-variant worker: a string field whose trimmed
value is non-empty, returned trimmed. -/
def assertStringOpt : Option String → Option String
  | none => none
  | some s => if trimStr s = "" then none else some (trimStr s)

/-- hashPassword of the session-variant worker: sha256Hex of
salt ++ ":" ++ password; the SHA-256 primitive is the parameter sha. -/
def hashPassword (sha : String → String) (password salt : String) : String :=
  sha (salt ++ ":" ++ password)

/-- 1000 * 60 * 60 * 24 * 7 milliseconds. -/
def sevenDaysMs : Int := 604800000

/-- The credential check of the session-variant login, given the user row
found for the email: reject an inactive user, recompute the salted hash and
compare it with the stored one, and on success insert the 7-day session. -/
def loginCheck (sha : String → String) (password : String) (u : UserRow)
    (sessions : List SessionRow) (newToken : String) (nowMs : Int)
    (nowIsoStr : String) : List SessionRow × LoginResp :=
  if u.is_active = 0 then (sessions, LoginResp.invalidCredentials)
  else if hashPassword sha password u.password_salt ≠ u.password_hash then
    (sessions, LoginResp.invalidCredentials)
  else
    ({ token := newToken, user_id := u.id, created_at := nowIsoStr,
       expires_at_ms := nowMs + sevenDaysMs } :: sessions,
     LoginResp.ok newToken)

/-- The user lookup of the session-variant login: SELECT ... FROM users
WHERE email = ?, rejecting an unknown email. -/
def loginLookup (sha : String → String) (email password : String)
    (users : List UserRow) (sessions : List SessionRow)
    (newToken : String) (nowMs : Int) (nowIsoStr : String) :
    List SessionRow × LoginResp :=
  match users.find? (fun u => u.email == email) with
  | none => (sessions, LoginResp.invalidCredentials)
  | some u => loginCheck sha password u sessions newToken nowMs nowIsoStr

/-- POST /auth/login (session-variant worker).  body is the parsed JSON body
(none when parsing failed); newToken the randomToken(32) value; nowMs the
Date.now() clock and nowIsoStr the nowIso() string. -/
def loginSession (sha : String → String) (body : Option LoginBody)
    (users : List UserRow) (sessions : List SessionRow)
    (newToken : String) (nowMs : Int) (nowIsoStr : String) :
    List SessionRow × LoginResp :=
  match body with
  | none => (sessions, LoginResp.badRequest)
  | some b =>
    match assertStringOpt b.email, assertStringOpt b.password with
    | some email, some password =>
      loginLookup sha email password users sessions newToken nowMs nowIsoStr
    | _, _ => (sessions, LoginResp.badRequest)

/-! ### Invariant vocabulary and concrete fixtures -/

/-- The generation-state range invariant: a pairs row written by the staging
worker always carries one of the three status strings. -/
def statusRange (p : Pair) : Prop :=
  p.mind_target_status = some "pending" ∨ p.mind_target_status = some "ready" ∨
    p.mind_target_status = some "failed"

instance (p : Pair) : Decidable (statusRange p) := by
  unfold statusRange; infer_instance

/-- A template pairs row for concrete test fixtures. -/
def basePair : Pair :=
  { id := "p0", experience_id := "e0", image_asset_id := "img0",
    video_asset_id := "vid0", image_fingerprint := none,
    mind_target_asset_id := none, mind_target_status := some "pending",
    mind_target_error := none, mind_target_requested_at := some "T0",
    mind_target_completed_at := none, threshold := 1, priority := 0,
    is_active := 1 }

/-- A pair whose generation already completed successfully. -/
def readyPair1 : Pair :=
  { basePair with
    id := "p1", experience_id := "e1", image_asset_id := "img1",
    video_asset_id := "vid1", mind_target_asset_id := some "m1",
    mind_target_status := some "ready", mind_target_completed_at := some "T1" }

/-- A pair whose generation failed with a recorded error. -/
def failedPair1 : Pair :=
  { basePair with
    id := "p1", experience_id := "e1", image_asset_id := "img1",
    video_asset_id := "vid1", mind_target_status := some "failed",
    mind_target_error := some "timeout", mind_target_completed_at := some "T1" }

/-- A pair still awaiting generation. -/
def pendingPair1 : Pair :=
  { basePair with
    id := "p1", experience_id := "e1", image_asset_id := "img1",
    video_asset_id := "vid1" }

/-- An empty PUT /pairs/:id body. -/
def emptyPutBody : PairPutBody :=
  { experience_id := none, image_asset_id := none, video_asset_id := none,
    image_fingerprint := none, threshold := none, priority := none,
    is_active := none }

/-- A PUT body whose image_asset_id is a whitespace-only string. -/
def whitespaceImageBody : PairPutBody :=
  { emptyPutBody with image_asset_id := some " " }

/-- A PUT body that only sets the priority. -/
def priorityOnlyBody : PairPutBody := { emptyPutBody with priority := some 1 }

/-- A PUT body carrying a fresh image asset id. -/
def newImageBody : PairPutBody := { emptyPutBody with image_asset_id := some "img2" }

/-- An active experience fixture. -/
def demoExperience : ExperienceRow :=
  { id := "e1", name := "Demo", qr_id := "ab12cd34ef", is_active := 1,
    created_at := "T0", updated_at := "T0" }

/-- A concrete stand-in for the HMAC-SHA-256 primitive, used to instantiate
theorems that are parametric in the signing function. -/
def hmacFix (secret payload : String) : String := secret ++ "." ++ payload

/-- A user fixture for the session-variant login; with the identity standing
in for SHA-256, the stored hash is salt ++ ":" ++ password. -/
def aliceUser : UserRow :=
  { id := "u1", email := "alice@x", password_hash := "salt1:pw1",
    password_salt := "salt1", is_active := 1 }

/-! ### Generic facts about updatePairs -/

theorem mem_updatePairs {pairs : List Pair} {pid : String} {f : Pair → Pair} {p : Pair}
    (h : p ∈ updatePairs pairs pid f) :
    ∃ q, q ∈ pairs ∧ ((q.id = pid ∧ p = f q) ∨ (q.id ≠ pid ∧ p = q)) := by
  unfold updatePairs at h
  rcases List.mem_map.1 h with ⟨q, hq, he⟩
  refine ⟨q, hq, ?_⟩
  by_cases hid : q.id = pid
  · exact Or.inl ⟨hid, by simp [hid] at he; exact he.symm⟩
  · exact Or.inr ⟨hid, by simp [hid] at he; exact he.symm⟩

theorem mem_updatePairs_target {pairs : List Pair} {pid : String} {f : Pair → Pair} {p : Pair}
    (h : p ∈ updatePairs pairs pid f) (hp : p.id = pid) :
    ∃ q, q ∈ pairs ∧ q.id = pid ∧ p = f q := by
  rcases mem_updatePairs h with ⟨q, hq, hcase⟩
  rcases hcase with ⟨hid, he⟩ | ⟨hid, he⟩
  · exact ⟨q, hq, hid, he⟩
  · exact absurd (he ▸ hp) hid

theorem updatePairs_get? (pairs : List Pair) (pid : String) (f : Pair → Pair) (i : Nat) :
    (updatePairs pairs pid f).get? i =
      (pairs.get? i).map (fun q => if q.id = pid then f q else q) := by
  unfold updatePairs
  simp [List.getElem?_map]

theorem statusRange_updatePairs {pairs : List Pair} {pid : String} {f : Pair → Pair}
    (hin : ∀ p ∈ pairs, statusRange p) (hf : ∀ q ∈ pairs, statusRange (f q)) :
    ∀ p ∈ updatePairs pairs pid f, statusRange p := by
  intro p hp
  rcases mem_updatePairs hp with ⟨q, hq, hcase⟩
  rcases hcase with ⟨_, he⟩ | ⟨_, he⟩
  · exact he ▸ hf q hq
  · exact he ▸ hin q hq

theorem putPairHandler_found {pairs : List Pair} {pid : String} {ex : Pair}
    (b : PairPutBody) (t : String) (dOk : Bool)
    (hfind : pairs.find? (fun p => p.id == pid) = some ex) :
    putPairHandler pid b t dOk pairs =
      if effImageChanged b ex then
        if dOk then
          { pairs := updatePairs pairs pid (putPairRow b ex t),
            found := true, dispatched := true }
        else
          { pairs := updatePairs (updatePairs pairs pid (putPairRow b ex t)) pid
              dispatchFailedRow,
            found := true, dispatched := true }
      else
        { pairs := updatePairs pairs pid (putPairRow b ex t),
          found := true, dispatched := false } := by
  unfold putPairHandler
  rw [hfind]

theorem putPairRow_status_of_changed {b : PairPutBody} {ex : Pair}
    (h : effImageChanged b ex = true) (t : String) (q : Pair) :
    (putPairRow b ex t q).mind_target_status = some "pending" := by
  simp [putPairRow, h]

theorem putPairRow_asset_of_changed {b : PairPutBody} {ex : Pair}
    (h : effImageChanged b ex = true) (t : String) (q : Pair) :
    (putPairRow b ex t q).mind_target_asset_id = none := by
  simp [putPairRow, h]

theorem putPairRow_requested_of_changed {b : PairPutBody} {ex : Pair}
    (h : effImageChanged b ex = true) (t : String) (q : Pair) :
    (putPairRow b ex t q).mind_target_requested_at = some t := by
  simp [putPairRow, h]

theorem putPairRow_image {b : PairPutBody} {ex : Pair} (t : String) (q : Pair) :
    (putPairRow b ex t q).image_asset_id =
      (truthyTrim b.image_asset_id).getD ex.image_asset_id := rfl

theorem putPairRow_status_of_unchanged {b : PairPutBody} {ex : Pair}
    (h : effImageChanged b ex = false) (t : String) (q : Pair) :
    (putPairRow b ex t q).mind_target_status = ex.mind_target_status := by
  simp [putPairRow, h]

theorem statusRange_failedRow (msg t : String) (q : Pair) :
    statusRange (completeFailedRow msg t q) := Or.inr (Or.inr rfl)

theorem statusRange_readyRow (aid t : String) (q : Pair) :
    statusRange (completeReadyRow aid t q) := Or.inr (Or.inl rfl)

theorem statusRange_pendingRow (t : String) (q : Pair) :
    statusRange (dispatchPendingRow t q) := Or.inl rfl

theorem statusRange_dispatchFailedRow (q : Pair) :
    statusRange (dispatchFailedRow q) := Or.inr (Or.inr rfl)

theorem updatePairs_pending_back {pairs : List Pair} {pid : String} {f : Pair → Pair}
    {i : Nat}
    (hf : ∀ q, (f q).mind_target_status = some "pending" →
      q.mind_target_status = some "pending")
    (h : (((updatePairs pairs pid f).get? i).map Pair.mind_target_status) =
      some (some "pending")) :
    ((pairs.get? i).map Pair.mind_target_status) = some (some "pending") := by
  rw [updatePairs_get?] at h
  cases hval : pairs.get? i with
  | none => rw [hval] at h; exact absurd h (by simp)
  | some q =>
    rw [hval] at h
    simp only [Option.map_some'] at h ⊢
    by_cases hid : q.id = pid
    · rw [if_pos hid] at h
      injection h with h
      exact congrArg some (hf q h)
    · rw [if_neg hid] at h
      exact h

theorem length_pos_of_ne_empty {s : String} (h : s ≠ "") : 0 < s.length := by
  cases s with
  | mk data =>
    cases data with
    | nil => exact absurd rfl h
    | cons c cs => simp [String.length]

/-! ### C10 -/

/-- C10: in the staging worker, for every request to a path under
/experiences, /pairs or /uploads, presenting an x-job-secret header exactly
equal to the configured non-empty MINDAR_JOB_SECRET passes the auth gate even
with no bearer user: the job secret authorizes all the protected admin CRUD
and upload routes, not only the job completion callback. -/
theorem C10_job_secret_bypasses_admin_auth :
    ∀ path secret header,
      (strStartsWith path "/experiences" = true ∨ strStartsWith path "/pairs" = true ∨
        strStartsWith path "/uploads" = true) →
      secret ≠ "" → header = secret →
      authGateRejects path false secret header = false := by
  intro path secret header _hpath hsec hhd
  have hlen : 0 < secret.length := length_pos_of_ne_empty hsec
  simp [authGateRejects, isJobSecretValid, hlen, hhd]

/-- C10 witness: a concrete protected pair route, a non-empty configured job
secret and a matching header pass the gate with no bearer token. -/
theorem C10_job_secret_bypasses_admin_auth_witness :
    authGateRejects "/pairs/p1" false "jobsecret" "jobsecret" = false :=
  C10_job_secret_bypasses_admin_auth "/pairs/p1" "jobsecret" "jobsecret"
    (Or.inr (Or.inl (by decide))) (by decide) rfl

/-! ### C4 -/

/-- C4: public resolution answers NotFound exactly when no experiences row
has the code or the first matching row is inactive; for an existing active
experience it answers with an ok payload — and when no active pair exists at
all, that payload carries null URLs and a null status rather than an error. -/
theorem C4_public_resolution_404_iff :
    ∀ origin exps pairs qrId,
      (publicExperienceGet origin exps pairs qrId = PublicResp.notFound ↔
        (exps.find? (fun e => e.qr_id == qrId) = none ∨
          ∃ e, exps.find? (fun e2 => e2.qr_id == qrId) = some e ∧ e.is_active = 0)) ∧
      (∀ e, exps.find? (fun e2 => e2.qr_id == qrId) = some e → e.is_active ≠ 0 →
        publicExperienceGet origin exps pairs qrId ≠ PublicResp.notFound ∧
        (selectPublicPair pairs e.id = none →
          publicExperienceGet origin exps pairs qrId =
            PublicResp.ok (mapExperience e) none none none)) := by
  intro origin exps pairs qrId
  constructor
  · cases hf : exps.find? (fun e => e.qr_id == qrId) with
    | none => simp [publicExperienceGet, hf]
    | some e =>
      by_cases ha : e.is_active = 0
      · simp [publicExperienceGet, hf, ha]
      · simp [publicExperienceGet, hf, ha]
  · intro e hf ha
    constructor
    · simp [publicExperienceGet, hf, ha]
    · intro hsel
      simp [publicExperienceGet, hf, ha, hsel]

/-- C4 witness: a concrete active experience with no pairs at all resolves to
an ok payload with null URLs and null status. -/
theorem C4_public_resolution_404_iff_witness :
    publicExperienceGet "https://api" [demoExperience] [] "ab12cd34ef" =
      PublicResp.ok (mapExperience demoExperience) none none none :=
  ((C4_public_resolution_404_iff "https://api" [demoExperience] [] "ab12cd34ef").2
    demoExperience (by decide) (by decide)).2 (by decide)

/-! ### C5 -/

/-- C5: in every ok payload of public resolution, the status string and the
URL nullness agree: the resolved experience was active, mindarTargetUrl is
non-null only when the selected pair has status exactly "ready" with a truthy
generated-asset id bound (and then the reported status is "ready"), and when
no active pair exists both URLs and the status are null. -/
theorem C5_status_url_agreement :
    ∀ origin exps pairs qrId e m v s,
      publicExperienceGet origin exps pairs qrId = PublicResp.ok e m v s →
      ∃ er, exps.find? (fun e2 => e2.qr_id == qrId) = some er ∧ er.is_active ≠ 0 ∧
        e = mapExperience er ∧
        (m ≠ none → s = some "ready" ∧
          ∃ p aid, selectPublicPair pairs er.id = some p ∧
            p.mind_target_status = some "ready" ∧
            p.mind_target_asset_id = some aid ∧ aid ≠ "") ∧
        (selectPublicPair pairs er.id = none → m = none ∧ v = none ∧ s = none) := by
  intro origin exps pairs qrId e m v s h
  cases hf : exps.find? (fun e2 => e2.qr_id == qrId) with
  | none => simp [publicExperienceGet, hf] at h
  | some er =>
    by_cases ha : er.is_active = 0
    · simp [publicExperienceGet, hf, ha] at h
    · cases hsel : selectPublicPair pairs er.id with
      | none =>
        simp [publicExperienceGet, hf, ha, hsel] at h
        obtain ⟨he, hm, hv, hs⟩ := h
        subst he; subst hm; subst hv; subst hs
        exact ⟨er, rfl, ha, rfl, fun hm => absurd rfl hm, fun _ => ⟨rfl, rfl, rfl⟩⟩
      | some p =>
        cases haid : p.mind_target_asset_id with
        | none =>
          simp [publicExperienceGet, hf, ha, hsel, haid] at h
          obtain ⟨he, hm, hv, hs⟩ := h
          subst he; subst hm; subst hv; subst hs
          refine ⟨er, rfl, ha, rfl, fun hm => absurd rfl hm, fun hn => ?_⟩
          rw [hn] at hsel
          exact Option.noConfusion hsel
        | some aid =>
          by_cases hrdy : p.mind_target_status = some "ready" ∧ aid ≠ ""
          · simp [publicExperienceGet, hf, ha, hsel, haid, hrdy.1, hrdy.2] at h
            obtain ⟨he, hm, hv, hs⟩ := h
            subst he; subst hm; subst hv; subst hs
            refine ⟨er, rfl, ha, rfl,
              fun _ => ⟨rfl, p, aid, hsel, hrdy.1, haid, hrdy.2⟩, fun hn => ?_⟩
            rw [hn] at hsel
            exact Option.noConfusion hsel
          · simp [publicExperienceGet, hf, ha, hsel, haid, hrdy] at h
            obtain ⟨he, hm, hv, hs⟩ := h
            subst he; subst hm; subst hv; subst hs
            refine ⟨er, rfl, ha, rfl, fun hm => absurd rfl hm, fun hn => ?_⟩
            rw [hn] at hsel
            exact Option.noConfusion hsel

/-- C5 witness: a concrete ready pair yields a payload whose non-null
tracking-target URL comes with status "ready" and a bound asset id. -/
theorem C5_status_url_agreement_witness :
    ∃ er, [demoExperience].find? (fun e2 => e2.qr_id == "ab12cd34ef") = some er ∧
      er.is_active ≠ 0 ∧
      mapExperience demoExperience = mapExperience er ∧
      ((some "https://api/public/assets/m1" : Option String) ≠ none →
        (some "ready" : Option String) = some "ready" ∧
        ∃ p aid, selectPublicPair [readyPair1] er.id = some p ∧
          p.mind_target_status = some "ready" ∧
          p.mind_target_asset_id = some aid ∧ aid ≠ "") ∧
      (selectPublicPair [readyPair1] er.id = none →
        (some "https://api/public/assets/m1" : Option String) = none ∧
        (some "https://api/public/assets/vid1" : Option String) = none ∧
        (some "ready" : Option String) = none) :=
  C5_status_url_agreement "https://api" [demoExperience] [readyPair1] "ab12cd34ef"
    (mapExperience demoExperience) (some "https://api/public/assets/m1")
    (some "https://api/public/assets/vid1") (some "ready") (by decide)

/-! ### C3 -/

/-- C3: for every completion callback with a valid job secret and a
non-empty pairId: a body carrying a non-empty error string marks the pair
failed, records exactly that string as mind_target_error (verbatim, no
trimming) and sets the completion timestamp; a body carrying a mindAssetId
that is non-empty after the handler trimming, and no error, marks the pair
ready with that asset id bound, the error cleared and the completion
timestamp set. -/
theorem C3_completion_callback :
    ∀ pid aid err t pairs,
      trimStr pid ≠ "" →
      ((err.getD "" ≠ "" →
        (completeMindar true pid aid err t pairs).2 =
          CompleteResp.failedAck (err.getD "") ∧
        ∀ p ∈ (completeMindar true pid aid err t pairs).1, p.id = trimStr pid →
          p.mind_target_status = some "failed" ∧
          p.mind_target_error = some (err.getD "") ∧
          p.mind_target_completed_at = some t) ∧
      (err.getD "" = "" → trimStr aid ≠ "" →
        (completeMindar true pid aid err t pairs).2 = CompleteResp.okAck ∧
        ∀ p ∈ (completeMindar true pid aid err t pairs).1, p.id = trimStr pid →
          p.mind_target_status = some "ready" ∧
          p.mind_target_asset_id = some (trimStr aid) ∧
          p.mind_target_error = none ∧
          p.mind_target_completed_at = some t)) := by
  intro pid aid err t pairs hpid
  constructor
  · intro herr
    have hcm : completeMindar true pid aid err t pairs =
        (updatePairs pairs (trimStr pid) (completeFailedRow (err.getD "") t),
          CompleteResp.failedAck (err.getD "")) := by
      unfold completeMindar
      simp [hpid, herr]
    refine ⟨by rw [hcm], ?_⟩
    intro p hp hpe
    rw [hcm] at hp
    rcases mem_updatePairs_target hp hpe with ⟨q, _, _, hq⟩
    subst hq
    exact ⟨rfl, rfl, rfl⟩
  · intro herr haid
    have hcm : completeMindar true pid aid err t pairs =
        (updatePairs pairs (trimStr pid) (completeReadyRow (trimStr aid) t),
          CompleteResp.okAck) := by
      unfold completeMindar
      simp [hpid, herr, haid]
    refine ⟨by rw [hcm], ?_⟩
    intro p hp hpe
    rw [hcm] at hp
    rcases mem_updatePairs_target hp hpe with ⟨q, _, _, hq⟩
    subst hq
    exact ⟨rfl, rfl, rfl, rfl⟩

/-- C3 witness: a failure callback with error "timeout" is acknowledged as
failed with exactly that message, and a success callback with asset id
"mind1" is acknowledged ready; the updated row records the message verbatim
and the asset id respectively. -/
theorem C3_completion_callback_witness :
    (completeMindar true "p1" "" (some "timeout") "T1" [pendingPair1]).2 =
      CompleteResp.failedAck "timeout" ∧
    (completeMindar true "p1" "mind1" none "T2" [pendingPair1]).2 =
      CompleteResp.okAck ∧
    (completeFailedRow "timeout" "T1" pendingPair1).mind_target_error = some "timeout" ∧
    (completeReadyRow "mind1" "T2" pendingPair1).mind_target_asset_id = some "mind1" :=
  ⟨((C3_completion_callback "p1" "" (some "timeout") "T1" [pendingPair1]
      (by decide)).1 (by decide)).1,
   ((C3_completion_callback "p1" "mind1" none "T2" [pendingPair1]
      (by decide)).2 (by decide) (by decide)).1,
   (((C3_completion_callback "p1" "" (some "timeout") "T1" [pendingPair1]
      (by decide)).1 (by decide)).2
      (completeFailedRow "timeout" "T1" pendingPair1) (by decide) (by decide)).2.1,
   (((C3_completion_callback "p1" "mind1" none "T2" [pendingPair1]
      (by decide)).2 (by decide) (by decide)).2
      (completeReadyRow "mind1" "T2" pendingPair1) (by decide) (by decide)).2.1⟩

/-! ### C6 -/

/-- C6: every dispatch of the generation job is fire-and-forget.  At the
explicit dispatch endpoint, at pair creation and on an image change through
the pair update, the pair is marked pending (creation inserts it pending)
before the external trigger is attempted; when the trigger call fails the
pair is immediately marked failed with the fixed message "Dispatch failed";
and the outcome depends only on whether the trigger call was accepted —
actual job completion is never awaited or verified, so a successful trigger
leaves the pair pending, not ready. -/
theorem C6_dispatch_fire_and_forget :
    (∀ pid img t dOk pairs, trimStr pid ≠ "" → trimStr img ≠ "" →
      (dispatchMindarEndpoint true pid img t dOk pairs).2 = DispatchResp.ok dOk ∧
      ∀ p ∈ (dispatchMindarEndpoint true pid img t dOk pairs).1, p.id = trimStr pid →
        (dOk = true → p.mind_target_status = some "pending" ∧
          p.mind_target_error = none ∧ p.mind_target_requested_at = some t) ∧
        (dOk = false → p.mind_target_status = some "failed" ∧
          p.mind_target_error = some "Dispatch failed")) ∧
    (∀ expId img vid fp th pr nid t dOk pairs,
      trimStr img ≠ "" → trimStr vid ≠ "" → (∀ p ∈ pairs, p.id ≠ nid) →
      (createPairHandler expId img vid fp th pr nid t dOk pairs).dispatched = true ∧
      ∀ p ∈ (createPairHandler expId img vid fp th pr nid t dOk pairs).pairs,
        p.id = nid →
        (dOk = true → p.mind_target_status = some "pending") ∧
        (dOk = false → p.mind_target_status = some "failed" ∧
          p.mind_target_error = some "Dispatch failed")) ∧
    (∀ pid b t dOk pairs ex,
      pairs.find? (fun p => p.id == pid) = some ex →
      effImageChanged b ex = true →
      (putPairHandler pid b t dOk pairs).dispatched = true ∧
      ∀ p ∈ (putPairHandler pid b t dOk pairs).pairs, p.id = pid →
        (dOk = true → p.mind_target_status = some "pending") ∧
        (dOk = false → p.mind_target_status = some "failed" ∧
          p.mind_target_error = some "Dispatch failed")) := by
  refine ⟨?_, ?_, ?_⟩
  · intro pid img t dOk pairs hpid himg
    have hde : dispatchMindarEndpoint true pid img t dOk pairs =
        (if dOk then
          (updatePairs pairs (trimStr pid) (dispatchPendingRow t), DispatchResp.ok true)
        else
          (updatePairs (updatePairs pairs (trimStr pid) (dispatchPendingRow t))
            (trimStr pid) dispatchFailedRow, DispatchResp.ok false)) := by
      unfold dispatchMindarEndpoint
      simp [hpid, himg]
    cases dOk with
    | true =>
      simp at hde
      refine ⟨by rw [hde], ?_⟩
      intro p hp hpe
      rw [hde] at hp
      rcases mem_updatePairs_target hp hpe with ⟨q, _, _, hq⟩
      subst hq
      exact ⟨fun _ => ⟨rfl, rfl, rfl⟩, fun h => nomatch h⟩
    | false =>
      simp at hde
      refine ⟨by rw [hde], ?_⟩
      intro p hp hpe
      rw [hde] at hp
      rcases mem_updatePairs_target hp hpe with ⟨q, _, _, hq⟩
      subst hq
      constructor
      · intro h
        exact nomatch h
      · intro h
        exact ⟨rfl, rfl⟩
  · intro expId img vid fp th pr nid t dOk pairs himg hvid hfresh
    have hcr : createPairHandler expId img vid fp th pr nid t dOk pairs =
        (if dOk then
          { pairs := pairs ++
              [newPairRow nid expId (trimStr img) (trimStr vid) fp
                (th.getD defaultThreshold) (pr.getD 0) t],
            created := true, dispatched := true }
        else
          { pairs := updatePairs (pairs ++
              [newPairRow nid expId (trimStr img) (trimStr vid) fp
                (th.getD defaultThreshold) (pr.getD 0) t]) nid dispatchFailedRow,
            created := true, dispatched := true }) := by
      unfold createPairHandler
      simp [himg, hvid]
    cases dOk with
    | true =>
      simp at hcr
      refine ⟨by rw [hcr], ?_⟩
      intro p hp hpe
      rw [hcr] at hp
      rcases List.mem_append.1 hp with hin | hin
      · exact absurd hpe (hfresh p hin)
      · rcases List.mem_singleton.1 hin with rfl
        exact ⟨fun _ => rfl, fun h => nomatch h⟩
    | false =>
      simp at hcr
      refine ⟨by rw [hcr], ?_⟩
      intro p hp hpe
      rw [hcr] at hp
      rcases mem_updatePairs_target hp hpe with ⟨q, _, _, hq⟩
      subst hq
      constructor
      · intro h
        exact nomatch h
      · intro h
        exact ⟨rfl, rfl⟩
  · intro pid b t dOk pairs ex hfind hic
    have hput := putPairHandler_found b t dOk hfind
    rw [hic] at hput
    cases dOk with
    | true =>
      simp at hput
      refine ⟨by rw [hput], ?_⟩
      intro p hp hpe
      rw [hput] at hp
      rcases mem_updatePairs_target hp hpe with ⟨q, _, _, hq⟩
      subst hq
      exact ⟨fun _ => putPairRow_status_of_changed hic t q, fun h => nomatch h⟩
    | false =>
      simp at hput
      refine ⟨by rw [hput], ?_⟩
      intro p hp hpe
      rw [hput] at hp
      rcases mem_updatePairs_target hp hpe with ⟨q, _, _, hq⟩
      subst hq
      constructor
      · intro h
        exact nomatch h
      · intro h
        exact ⟨rfl, rfl⟩

/-- C6 witness: on a concrete pair, a failed trigger at the dispatch endpoint
leaves the row failed with the fixed message, and the endpoint acknowledges
the trigger outcome. -/
theorem C6_dispatch_fire_and_forget_witness :
    (dispatchMindarEndpoint true "p1" "img1" "T4" false [pendingPair1]).2 =
      DispatchResp.ok false ∧
    (dispatchFailedRow (dispatchPendingRow "T4" pendingPair1)).mind_target_status =
      some "failed" ∧
    (dispatchFailedRow (dispatchPendingRow "T4" pendingPair1)).mind_target_error =
      some "Dispatch failed" :=
  ⟨(C6_dispatch_fire_and_forget.1 "p1" "img1" "T4" false [pendingPair1]
      (by decide) (by decide)).1,
   (((C6_dispatch_fire_and_forget.1 "p1" "img1" "T4" false [pendingPair1]
      (by decide) (by decide)).2
      (dispatchFailedRow (dispatchPendingRow "T4" pendingPair1))
      (by decide) (by decide)).2 rfl).1,
   (((C6_dispatch_fire_and_forget.1 "p1" "img1" "T4" false [pendingPair1]
      (by decide) (by decide)).2
      (dispatchFailedRow (dispatchPendingRow "T4" pendingPair1))
      (by decide) (by decide)).2 rfl).2⟩


/-! ### C1 -/

/-- C1 counterexample: the claim asserts the status changes only along
pending to ready or pending to failed, but the completion callback applies
its UPDATE regardless of the current status: on a pair that is already
"ready" an error callback performs a ready-to-failed transition. -/
theorem C1_counterexample_ready_to_failed :
    readyPair1.mind_target_status = some "ready" ∧
    (completeMindar true "p1" "" (some "boom") "T2" [readyPair1]).1.map
      Pair.mind_target_status = [some "failed"] := by
  constructor
  · rfl
  · decide

/-- C1 amended: for every pair-mutating operation of the staging worker,
mind_target_status stays within pending / ready / failed; a transition to
ready always carries a non-null generated-asset id and a transition to
failed a non-null error string; the completion callback never (re-)enters
pending, which happens only through pair creation, an image change or an
explicit dispatch; but — amending the claim — the callback overwrites the
status regardless of the prior state, so ready-to-failed (and
failed-to-ready) transitions also occur when a callback arrives for a
non-pending pair. -/
theorem C1_status_machine_amended :
    (∀ secretOk pid aid err t pairs, (∀ p ∈ pairs, statusRange p) →
      ∀ p ∈ (completeMindar secretOk pid aid err t pairs).1, statusRange p) ∧
    (∀ userOk pid img t dOk pairs, (∀ p ∈ pairs, statusRange p) →
      ∀ p ∈ (dispatchMindarEndpoint userOk pid img t dOk pairs).1, statusRange p) ∧
    (∀ expId img vid fp th pr nid t dOk pairs, (∀ p ∈ pairs, statusRange p) →
      ∀ p ∈ (createPairHandler expId img vid fp th pr nid t dOk pairs).pairs,
        statusRange p) ∧
    (∀ pid b t dOk pairs, (∀ p ∈ pairs, statusRange p) →
      ∀ p ∈ (putPairHandler pid b t dOk pairs).pairs, statusRange p) ∧
    (∀ pid aid t pairs, trimStr pid ≠ "" → trimStr aid ≠ "" →
      ∀ p ∈ (completeMindar true pid aid none t pairs).1, p.id = trimStr pid →
        p.mind_target_status = some "ready" ∧
        p.mind_target_asset_id = some (trimStr aid)) ∧
    (∀ pid aid err t pairs, trimStr pid ≠ "" →
      (err.getD "" ≠ "" ∨ trimStr aid = "") →
      ∀ p ∈ (completeMindar true pid aid err t pairs).1, p.id = trimStr pid →
        p.mind_target_status = some "failed" ∧ p.mind_target_error ≠ none) ∧
    (∀ pid img t pairs, trimStr pid ≠ "" → trimStr img ≠ "" →
      ∀ p ∈ (dispatchMindarEndpoint true pid img t false pairs).1,
        p.id = trimStr pid →
        p.mind_target_status = some "failed" ∧
        p.mind_target_error = some "Dispatch failed") ∧
    (∀ secretOk pid aid err t pairs i,
      (((completeMindar secretOk pid aid err t pairs).1.get? i).map
        Pair.mind_target_status) = some (some "pending") →
      ((pairs.get? i).map Pair.mind_target_status) = some (some "pending")) := by
  refine ⟨?_, ?_, ?_, ?_, ?_, ?_, ?_, ?_⟩
  · intro secretOk pid aid err t pairs hin p hp
    unfold completeMindar at hp
    by_cases hs : secretOk = false
    · simp [hs] at hp
      exact hin p hp
    · by_cases hpid : trimStr pid = ""
      · simp [hs, hpid] at hp
        exact hin p hp
      · by_cases hbr : err.getD "" ≠ "" ∨ trimStr aid = ""
        · simp [hs, hpid, hbr] at hp
          exact statusRange_updatePairs hin
            (fun q _ => statusRange_failedRow _ _ _) p hp
        · simp [hs, hpid, hbr] at hp
          exact statusRange_updatePairs hin
            (fun q _ => statusRange_readyRow _ _ _) p hp
  · intro userOk pid img t dOk pairs hin p hp
    unfold dispatchMindarEndpoint at hp
    by_cases hu : userOk = false
    · simp [hu] at hp
      exact hin p hp
    · by_cases hbad : trimStr pid = "" ∨ trimStr img = ""
      · simp [hu, hbad] at hp
        exact hin p hp
      · have hmark : ∀ p ∈ updatePairs pairs (trimStr pid) (dispatchPendingRow t),
            statusRange p :=
          statusRange_updatePairs hin (fun q _ => statusRange_pendingRow _ _)
        cases dOk with
        | true =>
          simp [hu, hbad] at hp
          exact hmark p hp
        | false =>
          simp [hu, hbad] at hp
          exact statusRange_updatePairs hmark
            (fun q _ => statusRange_dispatchFailedRow _) p hp
  · intro expId img vid fp th pr nid t dOk pairs hin p hp
    unfold createPairHandler at hp
    by_cases hbad : trimStr img = "" ∨ trimStr vid = ""
    · simp [hbad] at hp
      exact hin p hp
    · have hins : ∀ p ∈ pairs ++
          [newPairRow nid expId (trimStr img) (trimStr vid) fp
            (th.getD defaultThreshold) (pr.getD 0) t], statusRange p := by
        intro p hp
        rcases List.mem_append.1 hp with h | h
        · exact hin p h
        · rcases List.mem_singleton.1 h with rfl
          exact Or.inl rfl
      cases dOk with
      | true =>
        simp [hbad] at hp
        rcases hp with h | h
        · exact hin p h
        · subst h
          exact Or.inl rfl
      | false =>
        simp [hbad] at hp
        exact statusRange_updatePairs hins
          (fun q _ => statusRange_dispatchFailedRow _) p hp
  · intro pid b t dOk pairs hin p hp
    cases hfind : pairs.find? (fun p => p.id == pid) with
    | none =>
      unfold putPairHandler at hp
      rw [hfind] at hp
      exact hin p hp
    | some ex =>
      have hex : statusRange ex := hin ex (List.mem_of_find?_eq_some hfind)
      have hrow : ∀ q ∈ pairs, statusRange (putPairRow b ex t q) := by
        intro q _
        cases hic : effImageChanged b ex with
        | true => exact Or.inl (putPairRow_status_of_changed hic t q)
        | false =>
          unfold statusRange
          rw [putPairRow_status_of_unchanged hic t q]
          exact hex
      have hupd : ∀ p ∈ updatePairs pairs pid (putPairRow b ex t), statusRange p :=
        statusRange_updatePairs hin hrow
      rw [putPairHandler_found b t dOk hfind] at hp
      by_cases hic : effImageChanged b ex
      · cases dOk with
        | true =>
          simp [hic] at hp
          exact hupd p hp
        | false =>
          simp [hic] at hp
          exact statusRange_updatePairs hupd
            (fun q _ => statusRange_dispatchFailedRow _) p hp
      · simp [hic] at hp
        exact hupd p hp
  · intro pid aid t pairs hpid haid p hp hpe
    have hcm : completeMindar true pid aid none t pairs =
        (updatePairs pairs (trimStr pid) (completeReadyRow (trimStr aid) t),
          CompleteResp.okAck) := by
      unfold completeMindar
      simp [hpid, haid]
    rw [hcm] at hp
    rcases mem_updatePairs_target hp hpe with ⟨q, _, _, hq⟩
    subst hq
    exact ⟨rfl, rfl⟩
  · intro pid aid err t pairs hpid hbr p hp hpe
    have hcm : completeMindar true pid aid err t pairs =
        (updatePairs pairs (trimStr pid)
          (completeFailedRow
            (if err.getD "" = "" then "MindAR generation failed" else err.getD "") t),
          CompleteResp.failedAck
            (if err.getD "" = "" then "MindAR generation failed" else err.getD "")) := by
      unfold completeMindar
      simp [hpid, hbr]
    rw [hcm] at hp
    rcases mem_updatePairs_target hp hpe with ⟨q, _, _, hq⟩
    subst hq
    exact ⟨rfl, by simp [completeFailedRow]⟩
  · intro pid img t pairs hpid himg p hp hpe
    have hde : dispatchMindarEndpoint true pid img t false pairs =
        (updatePairs (updatePairs pairs (trimStr pid) (dispatchPendingRow t))
          (trimStr pid) dispatchFailedRow, DispatchResp.ok false) := by
      unfold dispatchMindarEndpoint
      simp [hpid, himg]
    rw [hde] at hp
    rcases mem_updatePairs_target hp hpe with ⟨q, _, _, hq⟩
    subst hq
    exact ⟨rfl, rfl⟩
  · intro secretOk pid aid err t pairs i h
    by_cases hs : secretOk = false
    · have hcm : completeMindar secretOk pid aid err t pairs =
          (pairs, CompleteResp.unauthorized) := by
        unfold completeMindar; simp [hs]
      rw [hcm] at h
      exact h
    · by_cases hpid : trimStr pid = ""
      · have hcm : completeMindar secretOk pid aid err t pairs =
            (pairs, CompleteResp.missingPairId) := by
          unfold completeMindar; simp [hs, hpid]
        rw [hcm] at h
        exact h
      · by_cases hbr : err.getD "" ≠ "" ∨ trimStr aid = ""
        · have hcm : completeMindar secretOk pid aid err t pairs =
              (updatePairs pairs (trimStr pid)
                (completeFailedRow
                  (if err.getD "" = "" then "MindAR generation failed"
                   else err.getD "") t),
               CompleteResp.failedAck
                 (if err.getD "" = "" then "MindAR generation failed"
                  else err.getD "")) := by
            unfold completeMindar
            simp [hs, hpid, hbr]
          rw [hcm] at h
          exact updatePairs_pending_back
            (fun q hq => by simp [completeFailedRow] at hq) h
        · push_neg at hbr
          have hcm : completeMindar secretOk pid aid err t pairs =
              (updatePairs pairs (trimStr pid) (completeReadyRow (trimStr aid) t),
               CompleteResp.okAck) := by
            unfold completeMindar
            simp [hs, hpid, hbr.1, hbr.2]
          rw [hcm] at h
          exact updatePairs_pending_back
            (fun q hq => by simp [completeReadyRow] at hq) h

/-- C1 witness: a successful completion callback on a concrete pending pair
yields a ready row carrying the generated-asset id. -/
theorem C1_status_machine_amended_witness :
    (completeReadyRow "m9" "T9" pendingPair1).mind_target_status = some "ready" ∧
    (completeReadyRow "m9" "T9" pendingPair1).mind_target_asset_id = some "m9" :=
  (C1_status_machine_amended.2.2.2.2.1 "p1" "m9" "T9" [pendingPair1]
    (by decide) (by decide))
    (completeReadyRow "m9" "T9" pendingPair1) (by decide) (by decide)


/-! ### C2 -/

/-- C2 counterexample: a request whose image_asset_id is the whitespace
string " " differs from the stored id "img1", and the update does change the
stored image_asset_id (the truthy raw value trims to "", which ?? keeps),
yet the generation state is not reset: status stays "ready", the generated
asset id is kept and no dispatch is triggered, because the imageChanged test
treats the trimmed-empty id as falsy. -/
theorem C2_counterexample_whitespace_image :
    whitespaceImageBody.image_asset_id = some " " ∧
    readyPair1.image_asset_id = "img1" ∧
    (putPairHandler "p1" whitespaceImageBody "T2" true [readyPair1]).pairs.map
      Pair.image_asset_id = [""] ∧
    (putPairHandler "p1" whitespaceImageBody "T2" true [readyPair1]).pairs.map
      Pair.mind_target_status = [some "ready"] ∧
    (putPairHandler "p1" whitespaceImageBody "T2" true [readyPair1]).pairs.map
      Pair.mind_target_asset_id = [some "m1"] ∧
    (putPairHandler "p1" whitespaceImageBody "T2" true [readyPair1]).dispatched =
      false := by
  decide

/-- C2 amended: for every existing pair and update request whose extracted
image_asset_id (truthy raw value, trimmed) is non-empty and differs from the
stored one, the update stores the new id, resets mind_target_status to
pending, clears mind_target_asset_id, stamps mind_target_requested_at with
the current time and triggers a new dispatch, regardless of the prior
status; when that trigger call fails the pair is immediately re-marked
failed per the dispatch contract. -/
theorem C2_image_change_resets_amended :
    ∀ pid b t dOk pairs ex v,
      pairs.find? (fun p => p.id == pid) = some ex →
      truthyTrim b.image_asset_id = some v → v ≠ "" → v ≠ ex.image_asset_id →
      (putPairHandler pid b t dOk pairs).dispatched = true ∧
      ∀ p ∈ (putPairHandler pid b t dOk pairs).pairs, p.id = pid →
        p.image_asset_id = v ∧
        (dOk = true → p.mind_target_status = some "pending" ∧
          p.mind_target_asset_id = none ∧ p.mind_target_requested_at = some t) ∧
        (dOk = false → p.mind_target_status = some "failed" ∧
          p.mind_target_error = some "Dispatch failed") := by
  intro pid b t dOk pairs ex v hfind hv hv1 hv2
  have hic : effImageChanged b ex = true := by
    simp [effImageChanged, hv, hv1, hv2]
  have hput := putPairHandler_found b t dOk hfind
  rw [hic] at hput
  cases dOk with
  | true =>
    simp at hput
    refine ⟨by rw [hput], ?_⟩
    intro p hp hpe
    rw [hput] at hp
    rcases mem_updatePairs_target hp hpe with ⟨q, _, _, hq⟩
    subst hq
    refine ⟨by simp [putPairRow, hv], ?_, ?_⟩
    · intro h
      exact ⟨putPairRow_status_of_changed hic t q,
        putPairRow_asset_of_changed hic t q,
        putPairRow_requested_of_changed hic t q⟩
    · intro h
      exact nomatch h
  | false =>
    simp at hput
    refine ⟨by rw [hput], ?_⟩
    intro p hp hpe
    rw [hput] at hp
    rcases mem_updatePairs_target hp hpe with ⟨q, hq2, hqid, hq⟩
    subst hq
    rcases mem_updatePairs_target hq2 hqid with ⟨q2, _, _, hq3⟩
    subst hq3
    refine ⟨by simp [dispatchFailedRow, putPairRow, hv], ?_, ?_⟩
    · intro h
      exact nomatch h
    · intro h
      exact ⟨rfl, rfl⟩

/-- C2 witness: on a concrete ready pair, supplying the fresh image id
"img2" stores it, resets the state to pending with a cleared asset id and a
fresh request timestamp, and triggers the dispatch. -/
theorem C2_image_change_resets_amended_witness :
    (putPairHandler "p1" newImageBody "T3" true [readyPair1]).dispatched = true ∧
    (putPairRow newImageBody readyPair1 "T3" readyPair1).image_asset_id = "img2" ∧
    (putPairRow newImageBody readyPair1 "T3" readyPair1).mind_target_status =
      some "pending" ∧
    (putPairRow newImageBody readyPair1 "T3" readyPair1).mind_target_asset_id =
      none ∧
    (putPairRow newImageBody readyPair1 "T3" readyPair1).mind_target_requested_at =
      some "T3" :=
  ⟨(C2_image_change_resets_amended "p1" newImageBody "T3" true [readyPair1]
      readyPair1 "img2" (by decide) (by decide) (by decide) (by decide)).1,
   ((C2_image_change_resets_amended "p1" newImageBody "T3" true [readyPair1]
      readyPair1 "img2" (by decide) (by decide) (by decide) (by decide)).2
      (putPairRow newImageBody readyPair1 "T3" readyPair1)
      (by decide) (by decide)).1,
   (((C2_image_change_resets_amended "p1" newImageBody "T3" true [readyPair1]
      readyPair1 "img2" (by decide) (by decide) (by decide) (by decide)).2
      (putPairRow newImageBody readyPair1 "T3" readyPair1)
      (by decide) (by decide)).2.1 rfl).1,
   (((C2_image_change_resets_amended "p1" newImageBody "T3" true [readyPair1]
      readyPair1 "img2" (by decide) (by decide) (by decide) (by decide)).2
      (putPairRow newImageBody readyPair1 "T3" readyPair1)
      (by decide) (by decide)).2.1 rfl).2.1,
   (((C2_image_change_resets_amended "p1" newImageBody "T3" true [readyPair1]
      readyPair1 "img2" (by decide) (by decide) (by decide) (by decide)).2
      (putPairRow newImageBody readyPair1 "T3" readyPair1)
      (by decide) (by decide)).2.1 rfl).2.2⟩


/-! ### C7 -/

/-- C7 counterexample: replay is possible, refuting "succeeds exactly once
per issued signature" — after a first successful PUT, the very same issued
signature succeeds again on the resulting store; moreover for the empty key
the handler answers NotFound even when the supplied token equals the
recomputed signature, so the unrestricted success-iff-signature-match claim
also fails at the empty key. -/
theorem C7_counterexample_replay_and_empty_key :
    (putUploadHandler hmacFix "sec" "img/a" (some (hmacFix "sec" "upload:img/a"))
      none "d1" []).2 = UploadResp.ok "img/a" ∧
    (putUploadHandler hmacFix "sec" "img/a" (some (hmacFix "sec" "upload:img/a"))
      none "d2"
      (putUploadHandler hmacFix "sec" "img/a" (some (hmacFix "sec" "upload:img/a"))
        none "d1" []).1).2 = UploadResp.ok "img/a" ∧
    (putUploadHandler hmacFix "sec" "" (some (hmacFix "sec" "upload:"))
      none "d1" []).2 = UploadResp.notFound := by
  decide

/-- C7 amended: for every non-empty key, every signing function with a
non-empty signature for that key, and every supplied token, the upload PUT
succeeds if and only if the token equals the recomputed HMAC signature over
the purpose-tagged string "upload:" ++ key; a matching token writes the body
into the object store and a mismatch leaves it untouched; and a valid issued
signature succeeds on every presentation — replay is not prevented, so it
succeeds at least once but not exactly once. -/
theorem C7_put_upload_amended :
    ∀ (hmac : String → String → String) (secret r2Key : String)
      (token : Option String) (mime : Option String) (data : String)
      (bucket : List StoredObject),
      r2Key ≠ "" →
      buildUploadToken hmac secret r2Key ≠ "" →
      (((putUploadHandler hmac secret r2Key token mime data bucket).2 =
          UploadResp.ok r2Key) ↔
        token = some (buildUploadToken hmac secret r2Key)) ∧
      (token = some (buildUploadToken hmac secret r2Key) →
        ∃ m, (putUploadHandler hmac secret r2Key token mime data bucket).1 =
          { key := r2Key, mime := m, data := data } :: bucket) ∧
      (token ≠ some (buildUploadToken hmac secret r2Key) →
        (putUploadHandler hmac secret r2Key token mime data bucket).1 = bucket) ∧
      (token = some (buildUploadToken hmac secret r2Key) →
        ∀ data2 bucket2,
          (putUploadHandler hmac secret r2Key token mime data2 bucket2).2 =
            UploadResp.ok r2Key) := by
  intro hmac secret r2Key token mime data bucket hk he
  have hver : ∀ (tk : Option String),
      verifyUploadToken hmac secret r2Key tk = true ↔
      tk = some (buildUploadToken hmac secret r2Key) := by
    intro tk
    cases tk with
    | none => simp [verifyUploadToken]
    | some s =>
      by_cases hs : s = ""
      · subst hs
        simp [verifyUploadToken, Ne.symm he]
      · simp [verifyUploadToken, hs]
  by_cases ht : token = some (buildUploadToken hmac secret r2Key)
  · have hv : verifyUploadToken hmac secret r2Key token = true := (hver token).2 ht
    have hph : putUploadHandler hmac secret r2Key token mime data bucket =
        ({ key := r2Key,
           mime := match mime with
             | some m => if m = "" then "application/octet-stream" else m
             | none => "application/octet-stream",
           data := data } :: bucket, UploadResp.ok r2Key) := by
      unfold putUploadHandler
      simp [hk, hv]
    refine ⟨?_, ?_, ?_, ?_⟩
    · rw [hph]
      simp [ht]
    · intro _
      exact ⟨_, by rw [hph]⟩
    · intro hc
      exact absurd ht hc
    · intro _ data2 bucket2
      unfold putUploadHandler
      simp [hk, hv]
  · have hv : verifyUploadToken hmac secret r2Key token = false := by
      cases hb : verifyUploadToken hmac secret r2Key token with
      | true => exact absurd ((hver token).1 hb) ht
      | false => rfl
    have hph : putUploadHandler hmac secret r2Key token mime data bucket =
        (bucket, UploadResp.unauthorized) := by
      unfold putUploadHandler
      simp [hk, hv]
    refine ⟨?_, ?_, ?_, ?_⟩
    · rw [hph]
      simp [ht]
    · intro hc
      exact absurd hc ht
    · intro _
      rw [hph]
    · intro hc
      exact absurd hc ht

/-- C7 witness: with a concrete signing function, secret and key, a matching
token succeeds (the iff instantiated), and the same issued signature is
accepted again over a store that already holds the uploaded object. -/
theorem C7_put_upload_amended_witness :
    ((putUploadHandler hmacFix "sec" "img/a" (some (hmacFix "sec" "upload:img/a"))
      none "d1" []).2 = UploadResp.ok "img/a" ↔
      (some (hmacFix "sec" "upload:img/a") : Option String) =
        some (buildUploadToken hmacFix "sec" "img/a")) ∧
    (putUploadHandler hmacFix "sec" "img/a" (some (hmacFix "sec" "upload:img/a"))
      none "d2"
      [{ key := "img/a", mime := "application/octet-stream", data := "d1" }]).2 =
      UploadResp.ok "img/a" :=
  ⟨(C7_put_upload_amended hmacFix "sec" "img/a"
      (some (hmacFix "sec" "upload:img/a")) none "d1" []
      (by decide) (by decide)).1,
   (C7_put_upload_amended hmacFix "sec" "img/a"
      (some (hmacFix "sec" "upload:img/a")) none "d1" []
      (by decide) (by decide)).2.2.2 (by decide) "d2"
      [{ key := "img/a", mime := "application/octet-stream", data := "d1" }]⟩


/-! ### C8 -/

theorem putPairSession_pairs (userOk : Bool) (pid : String) (b : SessPairPutBody)
    (pairs : List Pair) :
    (putPairSession userOk pid b pairs).1 =
      if userOk = false then pairs
      else if b.is_active = none ∧ b.threshold = none ∧ b.priority = none then pairs
      else updatePairs pairs pid (sessPutRow b) := by
  unfold putPairSession
  by_cases hu : userOk = false
  · simp [hu]
  · by_cases hb : b.is_active = none ∧ b.threshold = none ∧ b.priority = none
    · simp [hu, hb]
    · simp [hu, hb]
      split <;> rfl

/-- C8 counterexample: a priority-only update leaves every other field
unsupplied, yet the staging update clears the stored mind_target_error — the
failed pair keeps status "failed" but its recorded message "timeout" becomes
null. -/
theorem C8_counterexample_error_cleared :
    failedPair1.mind_target_error = some "timeout" ∧
    priorityOnlyBody.image_asset_id = none ∧
    priorityOnlyBody.threshold = none ∧
    (putPairHandler "p1" priorityOnlyBody "T3" true [failedPair1]).pairs.map
      Pair.mind_target_error = [none] ∧
    (putPairHandler "p1" priorityOnlyBody "T3" true [failedPair1]).pairs.map
      Pair.mind_target_status = [some "failed"] := by
  decide

/-- C8 amended: pair update has partial/patch semantics for every suppliable
field — each field not supplied keeps its stored value, and with an
unchanged image the generation-state fields are also kept — except that the
staging update handler always clears mind_target_error to null.  The
session-variant update can only ever touch is_active, threshold and
priority, each kept when not supplied, and never touches the other columns. -/
theorem C8_patch_semantics_amended :
    (∀ pid b t dOk pairs ex,
      pairs.find? (fun p => p.id == pid) = some ex →
      (∀ p ∈ pairs, p.id = pid → p = ex) →
      ∀ p ∈ (putPairHandler pid b t dOk pairs).pairs, p.id = pid →
        (truthyTrim b.experience_id = none → p.experience_id = ex.experience_id) ∧
        (truthyTrim b.image_asset_id = none → p.image_asset_id = ex.image_asset_id) ∧
        (truthyTrim b.video_asset_id = none → p.video_asset_id = ex.video_asset_id) ∧
        (b.image_fingerprint = none → p.image_fingerprint = ex.image_fingerprint) ∧
        (b.threshold = none → p.threshold = ex.threshold) ∧
        (b.priority = none → p.priority = ex.priority) ∧
        (b.is_active = none → p.is_active = ex.is_active) ∧
        p.mind_target_completed_at = ex.mind_target_completed_at ∧
        (effImageChanged b ex = false →
          p.mind_target_status = ex.mind_target_status ∧
          p.mind_target_asset_id = ex.mind_target_asset_id ∧
          p.mind_target_requested_at = ex.mind_target_requested_at ∧
          p.mind_target_error = none)) ∧
    (∀ userOk pid b pairs i,
      (((putPairSession userOk pid b pairs).1.get? i).map sessFrameFields) =
        ((pairs.get? i).map sessFrameFields) ∧
      (b.threshold = none →
        (((putPairSession userOk pid b pairs).1.get? i).map Pair.threshold) =
          ((pairs.get? i).map Pair.threshold)) ∧
      (b.priority = none →
        (((putPairSession userOk pid b pairs).1.get? i).map Pair.priority) =
          ((pairs.get? i).map Pair.priority)) ∧
      (b.is_active = none →
        (((putPairSession userOk pid b pairs).1.get? i).map Pair.is_active) =
          ((pairs.get? i).map Pair.is_active))) := by
  constructor
  · intro pid b t dOk pairs ex hfind huniq p hp hpe
    have hput := putPairHandler_found b t dOk hfind
    by_cases hic : effImageChanged b ex = true
    · rw [hic] at hput
      cases dOk with
      | true =>
        simp at hput
        rw [hput] at hp
        rcases mem_updatePairs_target hp hpe with ⟨q, hqm, hqid, hq⟩
        have hqe : q = ex := huniq q hqm hqid
        subst hq
        subst hqe
        refine ⟨fun hb => by simp [putPairRow, hb],
          fun hb => by simp [putPairRow, hb],
          fun hb => by simp [putPairRow, hb],
          fun hb => by simp [putPairRow, hb],
          fun hb => by simp [putPairRow, hb],
          fun hb => by simp [putPairRow, hb],
          fun hb => by simp [putPairRow, hb],
          rfl, ?_⟩
        intro h9
        exact nomatch (hic.symm.trans h9)
      | false =>
        simp at hput
        rw [hput] at hp
        rcases mem_updatePairs_target hp hpe with ⟨q, hqm, hqid, hq⟩
        subst hq
        rcases mem_updatePairs_target hqm hqid with ⟨q2, hq2m, hq2id, hq3⟩
        have hqe : q2 = ex := huniq q2 hq2m hq2id
        subst hq3
        subst hqe
        refine ⟨fun hb => by simp [dispatchFailedRow, putPairRow, hb],
          fun hb => by simp [dispatchFailedRow, putPairRow, hb],
          fun hb => by simp [dispatchFailedRow, putPairRow, hb],
          fun hb => by simp [dispatchFailedRow, putPairRow, hb],
          fun hb => by simp [dispatchFailedRow, putPairRow, hb],
          fun hb => by simp [dispatchFailedRow, putPairRow, hb],
          fun hb => by simp [dispatchFailedRow, putPairRow, hb],
          rfl, ?_⟩
        intro h9
        exact nomatch (hic.symm.trans h9)
    · have hicf : effImageChanged b ex = false := by
        cases hcb : effImageChanged b ex with
        | true => exact absurd hcb hic
        | false => rfl
      rw [hicf] at hput
      simp at hput
      rw [hput] at hp
      rcases mem_updatePairs_target hp hpe with ⟨q, hqm, hqid, hq⟩
      have hqe : q = ex := huniq q hqm hqid
      subst hq
      subst hqe
      refine ⟨fun hb => by simp [putPairRow, hb],
        fun hb => by simp [putPairRow, hb],
        fun hb => by simp [putPairRow, hb],
        fun hb => by simp [putPairRow, hb],
        fun hb => by simp [putPairRow, hb],
        fun hb => by simp [putPairRow, hb],
        fun hb => by simp [putPairRow, hb],
        rfl, ?_⟩
      intro _
      exact ⟨by simp [putPairRow, hicf], by simp [putPairRow, hicf],
        by simp [putPairRow, hicf], rfl⟩
  · intro userOk pid b pairs i
    rw [putPairSession_pairs]
    by_cases hu : userOk = false
    · simp [hu]
    · by_cases hall : b.is_active = none ∧ b.threshold = none ∧ b.priority = none
      · simp [hu, hall]
      · rw [if_neg hu, if_neg hall]
        have hcase : ∀ q : Pair,
            sessFrameFields (if q.id = pid then sessPutRow b q else q) =
              sessFrameFields q := by
          intro q
          by_cases hid : q.id = pid
          · simp [hid, sessFrameFields, sessPutRow]
          · simp [hid]
        refine ⟨?_, ?_, ?_, ?_⟩
        · rw [updatePairs_get?]
          cases hval : pairs.get? i with
          | none => simp
          | some q => simp [hcase q]
        · intro hb
          rw [updatePairs_get?]
          cases hval : pairs.get? i with
          | none => simp
          | some q =>
            by_cases hid : q.id = pid
            · simp [hid, sessPutRow, hb]
            · simp [hid]
        · intro hb
          rw [updatePairs_get?]
          cases hval : pairs.get? i with
          | none => simp
          | some q =>
            by_cases hid : q.id = pid
            · simp [hid, sessPutRow, hb]
            · simp [hid]
        · intro hb
          rw [updatePairs_get?]
          cases hval : pairs.get? i with
          | none => simp
          | some q =>
            by_cases hid : q.id = pid
            · simp [hid, sessPutRow, hb]
            · simp [hid]

/-- C8 witness: an all-unsupplied staging update on a concrete failed pair
keeps status, asset id, request and completion timestamps — while the error
column is cleared, per the amended frame. -/
theorem C8_patch_semantics_amended_witness :
    (putPairRow emptyPutBody failedPair1 "T9" failedPair1).mind_target_completed_at =
      failedPair1.mind_target_completed_at ∧
    (putPairRow emptyPutBody failedPair1 "T9" failedPair1).mind_target_status =
      failedPair1.mind_target_status ∧
    (putPairRow emptyPutBody failedPair1 "T9" failedPair1).mind_target_asset_id =
      failedPair1.mind_target_asset_id ∧
    (putPairRow emptyPutBody failedPair1 "T9" failedPair1).mind_target_error =
      none :=
  ⟨(C8_patch_semantics_amended.1 "p1" emptyPutBody "T9" true [failedPair1]
      failedPair1 (by decide) (by decide)
      (putPairRow emptyPutBody failedPair1 "T9" failedPair1)
      (by decide) (by decide)).2.2.2.2.2.2.2.1,
   ((C8_patch_semantics_amended.1 "p1" emptyPutBody "T9" true [failedPair1]
      failedPair1 (by decide) (by decide)
      (putPairRow emptyPutBody failedPair1 "T9" failedPair1)
      (by decide) (by decide)).2.2.2.2.2.2.2.2 (by decide)).1,
   ((C8_patch_semantics_amended.1 "p1" emptyPutBody "T9" true [failedPair1]
      failedPair1 (by decide) (by decide)
      (putPairRow emptyPutBody failedPair1 "T9" failedPair1)
      (by decide) (by decide)).2.2.2.2.2.2.2.2 (by decide)).2.1,
   ((C8_patch_semantics_amended.1 "p1" emptyPutBody "T9" true [failedPair1]
      failedPair1 (by decide) (by decide)
      (putPairRow emptyPutBody failedPair1 "T9" failedPair1)
      (by decide) (by decide)).2.2.2.2.2.2.2.2 (by decide)).2.2.2⟩


/-! ### C9 -/

/-- C9 counterexample: the staging-variant login consults no user store at
all — with an empty users table (so every email is unknown) the hard-coded
pair admin@local / admin123 still logs in, contradicting "fails exactly when
the hash does not match or the user is inactive or unknown"; and a login for
any other account is rejected even when that user exists. -/
theorem C9_counterexample_staging_hardcoded :
    loginStaging [] "admin@local" "admin123" 0 =
      StagingLoginResp.ok (issueStagingToken "admin@local" 0) ∧
    loginStaging [aliceUser] "alice@x" "pw1" 0 =
      StagingLoginResp.invalid "alice@x" := by
  decide

/-- C9 amended: the session-variant login looks up the stored salt for the
email, recomputes the salted hash of the supplied password and compares it
with the stored hash; given a well-formed body it answers
InvalidCredentials exactly when the user is unknown, inactive, or the hash
mismatches, and on success inserts a session expiring 7 days later.  The
staging-variant login instead succeeds exactly for the fixed pair
admin@local / admin123, independent of any user store, issuing a signed
token whose embedded expiry is 7 days (604800 seconds) ahead. -/
theorem C9_login_amended :
    (∀ (sha : String → String) (b : LoginBody) users sessions tk nowMs nowIsoStr
        email password,
      assertStringOpt b.email = some email →
      assertStringOpt b.password = some password →
      ((loginSession sha (some b) users sessions tk nowMs nowIsoStr).2 =
          LoginResp.invalidCredentials ↔
        (users.find? (fun u => u.email == email) = none ∨
          ∃ u, users.find? (fun u2 => u2.email == email) = some u ∧
            (u.is_active = 0 ∨
              hashPassword sha password u.password_salt ≠ u.password_hash))) ∧
      (∀ u, users.find? (fun u2 => u2.email == email) = some u →
        u.is_active ≠ 0 →
        hashPassword sha password u.password_salt = u.password_hash →
        (loginSession sha (some b) users sessions tk nowMs nowIsoStr).2 =
          LoginResp.ok tk ∧
        (loginSession sha (some b) users sessions tk nowMs nowIsoStr).1 =
          { token := tk, user_id := u.id, created_at := nowIsoStr,
            expires_at_ms := nowMs + sevenDaysMs } :: sessions)) ∧
    (∀ users emailRaw passwordRaw nowSec,
      (loginStaging users emailRaw passwordRaw nowSec =
          StagingLoginResp.ok
            (issueStagingToken (lowerStr (trimStr emailRaw)) nowSec) ↔
        (lowerStr (trimStr emailRaw) = "admin@local" ∧
          passwordRaw = "admin123")) ∧
      (issueStagingToken (lowerStr (trimStr emailRaw)) nowSec).exp =
        nowSec + 604800 ∧
      sevenDaysMs = 1000 * 60 * 60 * 24 * 7) := by
  refine ⟨?_, ?_⟩
  · intro sha b users sessions tk nowMs nowIsoStr email password hem hpw
    have h1 : loginSession sha (some b) users sessions tk nowMs nowIsoStr =
        loginLookup sha email password users sessions tk nowMs nowIsoStr := by
      have h0 : loginSession sha (some b) users sessions tk nowMs nowIsoStr =
          (match assertStringOpt b.email, assertStringOpt b.password with
           | some email, some password =>
             loginLookup sha email password users sessions tk nowMs nowIsoStr
           | _, _ => (sessions, LoginResp.badRequest)) := rfl
      rw [hem, hpw] at h0
      exact h0
    cases hfind : users.find? (fun u => u.email == email) with
    | none =>
      have h2 : loginLookup sha email password users sessions tk nowMs nowIsoStr =
          (sessions, LoginResp.invalidCredentials) := by
        unfold loginLookup
        rw [hfind]
      rw [h2] at h1
      constructor
      · rw [h1]
        simp
      · intro u hu
        exact absurd hu (by simp)
    | some u =>
      have h2 : loginLookup sha email password users sessions tk nowMs nowIsoStr =
          loginCheck sha password u sessions tk nowMs nowIsoStr := by
        unfold loginLookup
        rw [hfind]
      rw [h2] at h1
      by_cases hact : u.is_active = 0
      · have h3 : loginCheck sha password u sessions tk nowMs nowIsoStr =
            (sessions, LoginResp.invalidCredentials) := by
          unfold loginCheck
          rw [if_pos hact]
        rw [h3] at h1
        constructor
        · rw [h1]
          exact iff_of_true rfl (Or.inr ⟨u, rfl, Or.inl hact⟩)
        · intro u2 hu2 hact2 _
          injection hu2 with hu2e
          subst hu2e
          exact absurd hact hact2
      · by_cases hhash :
            hashPassword sha password u.password_salt ≠ u.password_hash
        · have h3 : loginCheck sha password u sessions tk nowMs nowIsoStr =
              (sessions, LoginResp.invalidCredentials) := by
            unfold loginCheck
            rw [if_neg hact, if_pos hhash]
          rw [h3] at h1
          constructor
          · rw [h1]
            exact iff_of_true rfl (Or.inr ⟨u, rfl, Or.inr hhash⟩)
          · intro u2 hu2 _ hhash2
            injection hu2 with hu2e
            subst hu2e
            exact absurd hhash2 hhash
        · have h3 : loginCheck sha password u sessions tk nowMs nowIsoStr =
              ({ token := tk, user_id := u.id, created_at := nowIsoStr,
                 expires_at_ms := nowMs + sevenDaysMs } :: sessions,
               LoginResp.ok tk) := by
            unfold loginCheck
            rw [if_neg hact, if_neg hhash]
          rw [h3] at h1
          constructor
          · constructor
            · intro hcon
              rw [h1] at hcon
              exact absurd hcon (by simp)
            · intro hrhs
              rcases hrhs with h | ⟨u2, hu2, hcase⟩
              · exact absurd h (by simp)
              · injection hu2 with hu2e
                subst hu2e
                rcases hcase with h | h
                · exact absurd h hact
                · exact absurd h hhash
          · intro u2 hu2 _ _
            injection hu2 with hu2e
            subst hu2e
            exact ⟨by rw [h1], by rw [h1]⟩
  · intro users emailRaw passwordRaw nowSec
    refine ⟨?_, rfl, by decide⟩
    unfold loginStaging
    by_cases hc : lowerStr (trimStr emailRaw) = "admin@local" ∧
        passwordRaw = "admin123"
    · rw [if_pos hc]
      exact iff_of_true rfl hc
    · rw [if_neg hc]
      constructor
      · intro h
        exact StagingLoginResp.noConfusion h
      · intro h
        exact absurd h hc

/-- C9 witness: with the identity function standing in for SHA-256, a
concrete active user whose stored hash is salt1:pw1 logs in with password
pw1, and the created session expires 7 days after the clock value. -/
theorem C9_login_amended_witness :
    (loginSession id (some { email := some "alice@x", password := some "pw1" })
      [aliceUser] [] "tok" 100 "T").2 = LoginResp.ok "tok" ∧
    (loginSession id (some { email := some "alice@x", password := some "pw1" })
      [aliceUser] [] "tok" 100 "T").1 =
      [{ token := "tok", user_id := "u1", created_at := "T",
         expires_at_ms := 100 + sevenDaysMs }] :=
  (C9_login_amended.1 id { email := some "alice@x", password := some "pw1" }
    [aliceUser] [] "tok" 100 "T" "alice@x" "pw1" (by decide) (by decide)).2
    aliceUser (by decide) (by decide) (by decide)

end Vidcom
